import Mathlib

/-!
Verification development for the `DecodedTx` slice of the safe-wallet-web
repository: the transaction-decode classifier in
`src/components/tx/DecodedTx/index.tsx` and the Safe-app manifest resolution
pipeline (`fetchAndParse`, `chooseBestIcon`, `getAppLogoUrl`,
`fetchAppManifest`, `isAppManifestValid`, `fetchSafeAppFromManifest`) that
shares the same source file.

The embedding is shallow: JavaScript strings are Lean `String`s, with the
handful of `String.prototype` operations re-implemented structurally over
`String.data` (lists of characters) so that every definition evaluates inside
the kernel; optional / possibly-`undefined` fields become `Option`; JSON
values become an inductive `Json`; code that can throw returns `Except`; and
the two network fetches are modelled by explicit outcome parameters
(`DiscoveryOutcome`, `ManifestFetchOutcome`) that describe what the network
does on the given call.
-/

namespace DecodedTxSpec

/-! ## Character-list string helpers (JS `String.prototype` operations) -/

/-- Splits a character list at every occurrence of the separator `sep`;
`acc` is the (reversed) current chunk.  Mirrors JS `split` with a
single-character separator: `"".split(s)` gives `[""]`, separators at the
ends produce empty chunks. -/
def chSplitAux (sep : Char) : List Char → List Char → List (List Char)
  | [], acc => [acc.reverse]
  | c :: tl, acc =>
    if c = sep then acc.reverse :: chSplitAux sep tl []
    else chSplitAux sep tl (c :: acc)

/-- JS `s.split(sep)` for a single-character separator. -/
def strSplitChar (s : String) (sep : Char) : List String :=
  (chSplitAux sep s.data []).map (fun l => ⟨l⟩)

/-- Does the character list `s` contain `pat` as a contiguous sub-list? -/
def chContainsSub : List Char → List Char → Bool
  | [], pat => pat.isEmpty
  | c :: tl, pat => List.isPrefixOf pat (c :: tl) || chContainsSub tl pat

/-- JS `s.includes(pat)` (substring containment). -/
def jsIncludes (s pat : String) : Bool :=
  chContainsSub s.data pat.data

/-- JS `s.startsWith(pat)`. -/
def jsStartsWith (s pat : String) : Bool :=
  List.isPrefixOf pat.data s.data

/-- JS `s.endsWith(pat)`. -/
def jsEndsWith (s pat : String) : Bool :=
  List.isPrefixOf pat.data.reverse s.data.reverse

/-- Modelled from the spec: `trimTrailingSlash` is imported from
`@/utils/url`, which is not part of this slice; the spec says step 1 of the
pipeline is "Normalize appUrl by stripping a trailing slash". -/
def trimTrailingSlash (u : String) : String :=
  if jsEndsWith u "/" then ⟨u.data.dropLast⟩ else u

/-- Modelled from the spec: `isRelativeUrl` is imported from `@/utils/url`,
which is not part of this slice.  Per the spec's UrlResolver contract the
separating slash is inserted "only if the reference is not already
identifiable as a root-relative path", so this predicate holds exactly on
root-relative references (those beginning with a slash). -/
def isRelativeUrl (u : String) : Bool :=
  jsStartsWith u "/"

/-- Breaks a character list at the first occurrence of the sub-list `pat`,
returning the part before and the part after, or `none` when `pat` does not
occur. -/
def chBreakAtSub (pat : List Char) : List Char → Option (List Char × List Char)
  | [] => if pat.isEmpty then some ([], []) else none
  | c :: tl =>
    if List.isPrefixOf pat (c :: tl) then some ([], (c :: tl).drop pat.length)
    else (chBreakAtSub pat tl).map (fun p => (c :: p.1, p.2))

/-- Modelled from the spec: the `origin` accessor of the WHATWG `URL` class
used by the source ("compute the app URL's origin (scheme + host, no
path)").  For a well-formed `scheme://host/path` URL this is
`scheme://host`. -/
def urlOrigin (u : String) : String :=
  match chBreakAtSub ("://".data) u.data with
  | some (scheme, rest) => (⟨scheme⟩ : String) ++ "://" ++ (⟨rest.takeWhile (fun c => c ≠ '/')⟩ : String)
  | none => u

/-- Parses a list of decimal digits into a number, `none` on any non-digit
character.  The empty list parses to `0`, matching JS `Number("") = 0`. -/
def chToNatAux : List Char → Nat → Option Nat
  | [], acc => some acc
  | c :: tl, acc =>
    if c.isDigit then chToNatAux tl (acc * 10 + (c.toNat - 48)) else none

/-- JS `Number(s)` restricted to the unsigned-decimal strings that appear as
width components of manifest icon size tokens; any other string is `none`
(JS `NaN`), and every comparison against `none` is false, exactly as every
comparison against `NaN` is false. -/
def jsNumberNat (s : String) : Option Nat :=
  chToNatAux s.data 0

/-! ## Transaction data model (`DecodedTx` component inputs) -/

/-- The `data` field of a `SafeTransaction`: target, value (integer base
units; the source stores a decimal string and compares it via `Number()`),
raw operation code and opaque calldata. -/
structure SafeTxData where
  «to» : String
  value : Nat
  operation : Nat
  data : String
  deriving DecidableEq

/-- A `SafeTransaction` as consumed by the component (only its `data`
record is read). -/
structure SafeTransaction where
  data : SafeTxData
  deriving DecidableEq

/-- One inner call of a decoded batch (`InternalTransaction` of the gateway
SDK).  Deeper `dataDecoded` nesting exists in the SDK type but is never
consulted by this slice, so it is not modelled. -/
structure InternalTransaction where
  operation : Nat
  «to» : String
  value : Option String
  data : Option String
  deriving DecidableEq

/-- One decoded parameter; `valueDecoded`, when present, is the nested
sequence of inner calls that represents a batch. -/
structure DecodedParameter where
  name : String
  type : String
  value : String
  valueDecoded : Option (List InternalTransaction)
  deriving DecidableEq

/-- The gateway `DecodedDataResponse`: a method name and an optional
ordered parameter list. -/
structure DecodedDataResponse where
  method : String
  parameters : Option (List DecodedParameter)
  deriving DecidableEq

/-- Source line 41: `const isMultisend = !!decodedData?.parameters?.[0]?.valueDecoded`.
The optional chain yields the first parameter's `valueDecoded` or
`undefined`; `!!` turns it into a boolean.  A decoded array is a JS object
and hence truthy even when it is empty, so this is exactly presence of the
field, i.e. `Option.isSome`. -/
def isMultisend (decodedData : Option DecodedDataResponse) : Bool :=
  match decodedData with
  | some d =>
    match d.parameters with
    | some (p :: _) => p.valueDecoded.isSome
    | _ => false
  | none => false

/-- Source line 90:
`!showMethodCall && !decodedData?.method && Number(tx?.data.value) > 0 && 'native transfer'`.
The truthiness of the rendered label: `!decodedData?.method` holds when
`decodedData` is absent or its method name is the empty string, and
`Number(undefined) > 0` is false, so an absent transaction never shows the
label. -/
def showsNativeTransfer (showMethodCall : Bool) (decodedData : Option DecodedDataResponse)
    (tx : Option SafeTransaction) : Bool :=
  !showMethodCall && ((decodedData.map (fun d => d.method)).getD "" == "")
    && decide (0 < (tx.map (fun t => t.data.value)).getD 0)

/-- The fields of `TxDetails.txData` that the component reads. -/
structure TransactionData where
  trustedDelegateCallTarget : Option Bool
  addressInfoIndex : Option (List (String × String))
  deriving DecidableEq

/-- The asynchronously fetched transaction details; only the optional
`txData` record is consulted by the fields modelled here. -/
structure TxDetails where
  txData : Option TransactionData
  deriving DecidableEq

/-- Semantic operation kind (`Operation` of the gateway SDK). -/
inductive OperationKind where
  | CALL
  | DELEGATE
  deriving DecidableEq

/-- `OperationType.DelegateCall` of the safe-core SDK. -/
def OperationType_DelegateCall : Nat := 1

/-- The `txData` presentation object built on source lines 51-58. -/
structure TxDataModel where
  dataDecoded : Option DecodedDataResponse
  «to» : String
  value : Option Nat
  operation : OperationKind
  trustedDelegateCallTarget : Bool
  addressInfoIndex : Option (List (String × String))

/-- Source lines 51-58: the presentation model assembled from the raw
transaction, the externally supplied decoded data and the optionally
arrived details.  `tx?.data.to || ''` collapses an absent transaction to
the empty string, `tx?.data.operation === OperationType.DelegateCall`
compares the optional raw code against the delegatecall code, and
`txDetails?.txData?.trustedDelegateCallTarget ?? true` defaults the trust
flag to `true` whenever the chain of optionals is broken. -/
def mkTxData (tx : Option SafeTransaction) (decodedData : Option DecodedDataResponse)
    (txDetails : Option TxDetails) : TxDataModel :=
  { dataDecoded := decodedData,
    «to» := (tx.map (fun t => t.data.«to»)).getD "",
    value := tx.map (fun t => t.data.value),
    operation :=
      if tx.map (fun t => t.data.operation) == some OperationType_DelegateCall
      then OperationKind.DELEGATE else OperationKind.CALL,
    trustedDelegateCallTarget :=
      ((txDetails.bind (fun td => td.txData)).bind
        (fun d => d.trustedDelegateCallTarget)).getD true,
    addressInfoIndex :=
      (txDetails.bind (fun td => td.txData)).bind (fun d => d.addressInfoIndex) }

/-- The claim C1's reading of `isMultisend`: the first parameter's decoded
value is a NON-EMPTY sequence of inner calls.  Written from the claim's
words, to be compared against the source's `isMultisend`. -/
def specIsMultisend (decodedData : Option DecodedDataResponse) : Bool :=
  match decodedData with
  | some d =>
    match d.parameters with
    | some (p :: _) =>
      match p.valueDecoded with
      | some (_ :: _) => true
      | _ => false
    | _ => false
  | none => false

/-- The claim C7's reading of the native-transfer signal: no method name
present and strictly positive call value, with no dependence on the
`showMethodCall` display flag.  Written from the claim's words. -/
def specNativeTransfer (decodedData : Option DecodedDataResponse)
    (tx : Option SafeTransaction) : Bool :=
  ((decodedData.map (fun d => d.method)).getD "" == "")
    && decide (0 < (tx.map (fun t => t.data.value)).getD 0)

/-- A decoded call whose first parameter carries an EMPTY nested batch:
`valueDecoded` is present but `[]`. -/
def emptyBatchDecoded : Option DecodedDataResponse :=
  some { method := "multiSend",
         parameters := some [{ name := "transactions", type := "bytes",
                               value := "0x", valueDecoded := some [] }] }

/-- A concrete inner call of a decoded batch. -/
def sampleInner : InternalTransaction :=
  { operation := 0, «to» := "0xa", value := some "0", data := none }

/-- A concrete decoded parameter carrying a non-empty nested batch. -/
def sampleBatchParam : DecodedParameter :=
  { name := "transactions", type := "bytes", value := "0x", valueDecoded := some [sampleInner] }

/-- A concrete transaction sending 1 wei with empty calldata. -/
def oneWeiTx : SafeTransaction :=
  { data := { «to» := "0xabc", value := 1, operation := 0, data := "0x" } }

/-- Concrete details carrying no trusted-delegate-target flag. -/
def detailsNoFlag : TxDetails :=
  { txData := some { trustedDelegateCallTarget := none, addressInfoIndex := none } }

/-- Concrete details carrying the flag `false`. -/
def detailsFalseFlag : TxDetails :=
  { txData := some { trustedDelegateCallTarget := some false, addressInfoIndex := none } }

/-! ## JSON values -/

/-- A parsed JSON value, as produced by `response.json()`. -/
inductive Json where
  | null
  | bool (b : Bool)
  | num (n : Int)
  | str (s : String)
  | arr (items : List Json)
  | obj (fields : List (String × Json))

/-- Looks up a key in a JSON object's field list (first binding wins). -/
def getField (fields : List (String × Json)) (k : String) : Option Json :=
  (fields.find? (fun kv => kv.1 == k)).map (fun kv => kv.2)

/-- JS `k in j` for the string keys used by the validator: only a JSON
object can carry them (a parsed array has numeric indices and built-in
properties only, never `name` / `description` / `icons` / `iconPath`). -/
def jsHasKey (j : Json) (k : String) : Bool :=
  match j with
  | Json.obj fields => fields.any (fun kv => kv.1 == k)
  | _ => false

/-- JS `typeof j === 'object'` on a parsed JSON value: objects, arrays and
`null` all have typeof `object`. -/
def jsTypeofObject : Json → Bool
  | Json.obj _ => true
  | Json.arr _ => true
  | Json.null => true
  | _ => false

/-- JS `j != null`. -/
def jsNonNull : Json → Bool
  | Json.null => false
  | _ => true

/-- Projects a JSON string, `none` otherwise. -/
def asString : Json → Option String
  | Json.str s => some s
  | _ => none

/-! ## Manifest data model and icon selection -/

/-- One manifest icon descriptor.  The TS type declares `sizes: string` as
required, but the manifest is untrusted JSON and the validator never
inspects icon entries, so at runtime the field can be missing
(`undefined`); it is therefore modelled as optional, as are `type` and
`purpose`-like extras the code never reads. -/
structure AppManifestIcon where
  src : String
  sizes : Option String
  type : Option String
  deriving DecidableEq

/-- The `AppManifest` shape the source declares (Web App Manifest plus the
Safe-specific `iconPath` and permission list). -/
structure AppManifest where
  name : String
  short_name : Option String
  description : String
  icons : Option (List AppManifestIcon)
  iconPath : Option String
  safe_apps_permissions : Option (List String)
  deriving DecidableEq

/-- Source line 156: `const MIN_ICON_WIDTH = 128`. -/
def MIN_ICON_WIDTH : Nat := 128

/-- The errors the pipeline can produce: the three ways the manifest fetch
fails (timeout-triggered abort, plain network rejection, non-2xx status —
collapsed by the spec into `ManifestFetchError`), the validator's
`ManifestInvalidError`, and the runtime `TypeError` thrown when icon
selection dereferences a missing `sizes` field. -/
inductive ManifestError where
  | abortError (url : String)
  | networkFailure (url : String)
  | notOk (url : String)
  | invalidManifest
  | typeError
  deriving DecidableEq

/-- The scalable-icon test of source line 159:
`icon?.sizes?.includes('any') || icon?.type === 'image/svg+xml'`.
Note `includes` is a SUBSTRING test on the whole `sizes` string, not a
membership test on its space-separated token list. -/
def isScalableIcon (icon : AppManifestIcon) : Bool :=
  ((icon.sizes.map (fun s => jsIncludes s "any")).getD false)
    || icon.type == some "image/svg+xml"

/-- Does the size token have a width component of at least
`MIN_ICON_WIDTH`?  Source line 167: `Number(size.split('x')[0]) >= MIN_ICON_WIDTH`;
a malformed (non-numeric) width is `NaN` and never passes. -/
def widthAtLeastMin (tok : String) : Bool :=
  match jsNumberNat ((strSplitChar tok 'x').headD "") with
  | some n => decide (MIN_ICON_WIDTH ≤ n)
  | none => false

/-- The width-threshold scan of source lines 165-171.  Unlike the scalable
find on line 159, line 166 reads `icon.sizes.split(' ')` WITHOUT optional
chaining: an icon whose `sizes` is missing makes the scan throw a
`TypeError` the moment it is reached. -/
def widthScan : List AppManifestIcon → Except ManifestError (Option String)
  | [] => Except.ok none
  | icon :: rest =>
    match icon.sizes with
    | none => Except.error ManifestError.typeError
    | some sz =>
      if (strSplitChar sz ' ').any widthAtLeastMin then Except.ok (some icon.src)
      else widthScan rest

/-- Source lines 158-174, `chooseBestIcon`: first any icon whose `sizes`
string contains `"any"` or whose type is SVG; otherwise the first icon
with a size token of width ≥ 128 (a scan that throws on a missing `sizes`
field); otherwise `icons[0].src || ''`.  On the empty list the fallback
itself throws (`icons[0]` is `undefined`); `src || ''` is the identity
once `src` is a string, it only guards an absent field. -/
def chooseBestIcon (icons : List AppManifestIcon) : Except ManifestError String :=
  match icons.find? isScalableIcon with
  | some svgIcon => Except.ok svgIcon.src
  | none =>
    match widthScan icons with
    | Except.error e => Except.error e
    | Except.ok (some src) => Except.ok src
    | Except.ok none =>
      match icons with
      | [] => Except.error ManifestError.typeError
      | first :: _ => Except.ok first.src

/-- Source lines 182-192, `getAppLogoUrl`: destructures with defaults
`{ icons = [], iconPath = '' }`, picks `chooseBestIcon(icons)` when the
icon list is non-empty and `iconPath` otherwise, returns the reference
unchanged when it already starts with `https://`, and otherwise prepends
the app URL's origin, inserting a slash only for non-root-relative
references. -/
def getAppLogoUrl (appUrl : String) (m : AppManifest) : Except ManifestError String :=
  let icons := m.icons.getD []
  let iconPath := m.iconPath.getD ""
  match (if icons.isEmpty then Except.ok iconPath else chooseBestIcon icons : Except ManifestError String) with
  | Except.error e => Except.error e
  | Except.ok iconUrl =>
    if jsStartsWith iconUrl "https://" then Except.ok iconUrl
    else Except.ok (urlOrigin appUrl ++ (if isRelativeUrl iconUrl then "" else "/") ++ iconUrl)

/-- Source lines 221-229, `isAppManifestValid`:
`json != null && typeof json === 'object' && 'name' in json && 'description' in json && ('icons' in json || 'iconPath' in json)`. -/
def isAppManifestValid (j : Json) : Bool :=
  jsNonNull j && jsTypeofObject j && jsHasKey j "name" && jsHasKey j "description"
    && (jsHasKey j "icons" || jsHasKey j "iconPath")

/-- Reads one icon entry out of the manifest JSON (the TS code reaches the
fields through a type assertion; a missing or non-string field is
`undefined`, collapsed to `""` for the required `src`). -/
def jsonToIcon (j : Json) : AppManifestIcon :=
  match j with
  | Json.obj fields =>
    { src := ((getField fields "src").bind asString).getD "",
      sizes := (getField fields "sizes").bind asString,
      type := (getField fields "type").bind asString }
  | _ => { src := "", sizes := none, type := none }

/-- Reads the validated manifest JSON into the `AppManifest` shape the TS
code assumes via its type assertion. -/
def jsonToManifest (j : Json) : AppManifest :=
  match j with
  | Json.obj fields =>
    { name := ((getField fields "name").bind asString).getD "",
      short_name := (getField fields "short_name").bind asString,
      description := ((getField fields "description").bind asString).getD "",
      icons := (getField fields "icons").bind
        (fun v => match v with
          | Json.arr xs => some (xs.map jsonToIcon)
          | _ => none),
      iconPath := (getField fields "iconPath").bind asString,
      safe_apps_permissions := (getField fields "safe_apps_permissions").bind
        (fun v => match v with
          | Json.arr xs => some (xs.filterMap asString)
          | _ => none) }
  | _ =>
    { name := "", short_name := none, description := "", icons := none,
      iconPath := none, safe_apps_permissions := none }

/-! ## Discovery and manifest fetch -/

/-- What the network does on the best-effort discovery fetch of the app's
HTML (source lines 121-137): it can reject (network error — parse errors
are also swallowed by the same catch), or resolve with a status and the
`href` of a `link[rel=manifest]` element when one is present. -/
inductive DiscoveryOutcome where
  | networkError
  | response (ok : Bool) (manifestHref : Option String)

/-- Source lines 121-137, `fetchAndParse`: a non-2xx status throws, the
HTML is parsed for a manifest link, and every error is caught, logged and
collapsed to `undefined` — discovery is never fatal. -/
def fetchAndParse (d : DiscoveryOutcome) : Option String :=
  match d with
  | DiscoveryOutcome.networkError => none
  | DiscoveryOutcome.response ok href => if ok then href else none

/-- Source lines 195-203: the candidate manifest URL defaults to
`<normalizedUrl>/manifest.json` and is replaced by
`new URL(appUrl).origin + manifestPath` when discovery produced a truthy
(non-empty) href. -/
def computeManifestUrl (appUrl : String) (d : DiscoveryOutcome) : String :=
  let normalizedUrl := trimTrailingSlash appUrl
  match fetchAndParse d with
  | some p => if p == "" then normalizedUrl ++ "/manifest.json" else urlOrigin appUrl ++ p
  | none => normalizedUrl ++ "/manifest.json"

/-- What the network does on the manifest fetch itself: the response would
settle (resolve with status and body, or reject with a network error) at
`elapsedMs` milliseconds after the request started. -/
inductive ManifestFetchOutcome where
  | resolves (elapsedMs : Nat) (ok : Bool) (body : Json)
  | networkError (elapsedMs : Nat)

/-- The observable outcome of one `fetchAppManifest` call: the manifest URL
it fetched, its result, whether `clearTimeout` ran, and whether the abort
timer was still pending (neither fired nor cleared) when the call
returned or threw. -/
structure FetchRun where
  manifestUrl : String
  result : Except ManifestError Json
  timerCleared : Bool
  timerOutstanding : Bool

/-- Source lines 194-219, `fetchAppManifest`: computes the manifest URL,
starts an abort timer (`setTimeout(() => controller.abort(), timeout)`),
awaits `fetch(manifestUrl, { signal })`, then `clearTimeout(id)`, then
throws on a non-ok status and otherwise returns the JSON body.

The timer semantics of the embedding: if the response settles within
`timeout` ms the fetch wins and the code after `await` runs, so
`clearTimeout` executes; if the response would settle only after `timeout`
ms the timer fires first, `controller.abort()` rejects the fetch with an
abort error, and — there being no `try`/`finally` — `clearTimeout` is
never reached (the timer has fired, so nothing is left pending).  If the
fetch rejects with a network error within `timeout` ms, the rejection also
skips `clearTimeout`, leaving the not-yet-fired timer pending. -/
def fetchAppManifest (appUrl : String) (timeout : Nat) (d : DiscoveryOutcome)
    (mf : ManifestFetchOutcome) : FetchRun :=
  let manifestUrl := computeManifestUrl appUrl d
  match mf with
  | ManifestFetchOutcome.resolves elapsed ok body =>
    if elapsed ≤ timeout then
      if ok then
        { manifestUrl := manifestUrl, result := Except.ok body,
          timerCleared := true, timerOutstanding := false }
      else
        { manifestUrl := manifestUrl,
          result := Except.error (ManifestError.notOk manifestUrl),
          timerCleared := true, timerOutstanding := false }
    else
      { manifestUrl := manifestUrl,
        result := Except.error (ManifestError.abortError manifestUrl),
        timerCleared := false, timerOutstanding := false }
  | ManifestFetchOutcome.networkError elapsed =>
    if elapsed ≤ timeout then
      { manifestUrl := manifestUrl,
        result := Except.error (ManifestError.networkFailure manifestUrl),
        timerCleared := false, timerOutstanding := true }
    else
      { manifestUrl := manifestUrl,
        result := Except.error (ManifestError.abortError manifestUrl),
        timerCleared := false, timerOutstanding := false }

/-- The default of the `timeout = 5000` parameter on source line 194. -/
def DEFAULT_MANIFEST_TIMEOUT : Nat := 5000

/-- `fetchAppManifest(appUrl)` as called with the defaulted timeout. -/
def fetchAppManifestDefault (appUrl : String) (d : DiscoveryOutcome)
    (mf : ManifestFetchOutcome) : FetchRun :=
  fetchAppManifest appUrl DEFAULT_MANIFEST_TIMEOUT d mf

/-- The `SafeAppDataWithPermissions` record built on source lines 244-258. -/
structure SafeAppData where
  id : Nat
  url : String
  name : String
  description : String
  accessControl : String
  tags : List String
  features : List String
  socialProfiles : List String
  developerWebsite : String
  chainIds : List String
  iconUrl : String
  safeAppsPermissions : List String
  deriving DecidableEq

/-- Source lines 231-259, `fetchSafeAppFromManifest`: normalizes the URL,
fetches the manifest with the default timeout, throws
`'Invalid Safe App manifest'` when the validator rejects it, resolves the
icon URL, and assembles the app record.  `rid` stands for the locally
generated random identifier `Math.round(Math.random() * 1e9 + 1e6)`. -/
def fetchSafeAppFromManifest (appUrl : String) (currentChainId : String) (rid : Nat)
    (d : DiscoveryOutcome) (mf : ManifestFetchOutcome) : Except ManifestError SafeAppData :=
  let normalizedAppUrl := trimTrailingSlash appUrl
  match (fetchAppManifestDefault appUrl d mf).result with
  | Except.error e => Except.error e
  | Except.ok j =>
    if isAppManifestValid j then
      let m := jsonToManifest j
      match getAppLogoUrl normalizedAppUrl m with
      | Except.error e => Except.error e
      | Except.ok iconUrl =>
        Except.ok
          { id := rid, url := normalizedAppUrl, name := m.name,
            description := m.description, accessControl := "NoRestrictions",
            tags := [], features := [], socialProfiles := [],
            developerWebsite := "", chainIds := [currentChainId],
            iconUrl := iconUrl,
            safeAppsPermissions := m.safe_apps_permissions.getD [] }
    else Except.error ManifestError.invalidManifest

/-! ## Spec-side selection and validity definitions (written from the
claims' words, for comparison with the source definitions) -/

/-- The space-separated size-token list of an icon (an absent `sizes`
yields no tokens but the empty token). -/
def sizeTokens (icon : AppManifestIcon) : List String :=
  strSplitChar (icon.sizes.getD "") ' '

/-- Claim C3's scalable-icon test: the size-token LIST contains the literal
token `"any"`, or the declared type is SVG. -/
def isScalableIconSpec (icon : AppManifestIcon) : Bool :=
  (sizeTokens icon).contains "any" || icon.type == some "image/svg+xml"

/-- Does some size token of the icon have width ≥ 128? -/
def hasLargeSizeTok (icon : AppManifestIcon) : Bool :=
  (sizeTokens icon).any widthAtLeastMin

/-- Claim C3's selection rules, written from the claim's words: a scalable
icon (token `"any"` or SVG type) if one exists, else the first icon with a
size token of width ≥ 128, else the first icon's source (empty string for
an empty sequence). -/
def chooseBestIconSpec (icons : List AppManifestIcon) : String :=
  match icons.find? isScalableIconSpec with
  | some icon => icon.src
  | none =>
    match icons.find? hasLargeSizeTok with
    | some icon => icon.src
    | none =>
      match icons with
      | [] => ""
      | first :: _ => first.src

/-- The amended C3 selection rules: identical to `chooseBestIconSpec`
except that the scalable test matches the source's SUBSTRING check of
`"any"` against the whole `sizes` string. -/
def chooseBestIconAmended (icons : List AppManifestIcon) : String :=
  match icons.find? isScalableIcon with
  | some icon => icon.src
  | none =>
    match icons.find? hasLargeSizeTok with
    | some icon => icon.src
    | none =>
      match icons with
      | [] => ""
      | first :: _ => first.src

/-- Claim C4's characterization of manifest validity, written from the
claim's words: a non-null JSON object carrying the keys `name` and
`description` and at least one of `icons` / `iconPath`. -/
def specManifestValid (j : Json) : Bool :=
  match j with
  | Json.obj fields =>
    fields.any (fun kv => kv.1 == "name") && fields.any (fun kv => kv.1 == "description")
      && (fields.any (fun kv => kv.1 == "icons") || fields.any (fun kv => kv.1 == "iconPath"))
  | _ => false

/-- The icon pair of the C3 counterexample: no icon is scalable under the
claim's token-list reading and none reaches the width threshold, but the
second icon's `sizes` string `"many"` contains `"any"` as a substring. -/
def cexIcons : List AppManifestIcon :=
  [{ src := "a.png", sizes := some "64x64", type := none },
   { src := "b.png", sizes := some "many", type := none }]

/-- A manifest accepted by the validator whose first icon entry has no
`sizes` field (the validator only checks top-level key presence); the
second icon would pass the width threshold but is never reached. -/
def crashingManifestJson : Json :=
  Json.obj
    [("name", Json.str "x"), ("description", Json.str "y"),
     ("icons", Json.arr
        [Json.obj [("src", Json.str "a.png")],
         Json.obj [("src", Json.str "b.png"), ("sizes", Json.str "256x256")]])]

/-- A manifest consisting of nothing but a `src`-bearing icon list entry
wrapper: `{name: "x"}`, rejected by the validator. -/
def nameOnlyJson : Json :=
  Json.obj [("name", Json.str "x")]

/-- The accepted vector of claim C4: `{name:"x", description:"y", iconPath:"/i.png"}`. -/
def iconPathOnlyJson : Json :=
  Json.obj [("name", Json.str "x"), ("description", Json.str "y"),
            ("iconPath", Json.str "/i.png")]

/-- A manifest record whose only icon reference is the given `iconPath`
(empty icon list), so that `getAppLogoUrl` resolves exactly that
reference. -/
def iconPathManifest (ref : String) : AppManifest :=
  { name := "", short_name := none, description := "", icons := none,
    iconPath := some ref, safe_apps_permissions := none }

/-! ## Helper lemmas -/

/-- The width-threshold scan agrees with a first-match search over
`hasLargeSizeTok` whenever every icon carries a `sizes` string. -/
theorem widthScan_eq_find : ∀ (icons : List AppManifestIcon),
    (∀ i ∈ icons, i.sizes.isSome) →
    widthScan icons = Except.ok ((icons.find? hasLargeSizeTok).map (fun i => i.src))
  | [], _ => rfl
  | i :: tl, h => by
    obtain ⟨sz, hsz⟩ := Option.isSome_iff_exists.mp (h i (List.mem_cons_self i tl))
    have htl := widthScan_eq_find tl (fun x hx => h x (List.mem_cons_of_mem i hx))
    by_cases hc : (strSplitChar sz ' ').any widthAtLeastMin
    · simp [widthScan, hsz, hc, List.find?, hasLargeSizeTok, sizeTokens]
    · simp [widthScan, hsz, hc, List.find?, hasLargeSizeTok, sizeTokens, htl]

/-- The width-threshold scan only ever throws the `TypeError` of a missing
`sizes` field. -/
theorem widthScan_error (icons : List AppManifestIcon) (e : ManifestError)
    (h : widthScan icons = Except.error e) : e = ManifestError.typeError := by
  induction icons with
  | nil => cases h
  | cons i tl ih =>
    rw [widthScan] at h
    split at h
    · injection h with h2
      exact h2.symm
    · split at h
      · cases h
      · exact ih h

/-- Icon selection only ever throws the `TypeError` of a missing `sizes`
field (or of indexing an empty list). -/
theorem chooseBestIcon_error (icons : List AppManifestIcon) (e : ManifestError)
    (h : chooseBestIcon icons = Except.error e) : e = ManifestError.typeError := by
  unfold chooseBestIcon at h
  split at h
  · cases h
  · split at h
    · rename_i e2 hw
      injection h with h2
      exact h2 ▸ widthScan_error icons e2 hw
    · cases h
    · split at h
      · injection h with h2
        exact h2.symm
      · cases h

/-- Logo resolution only ever throws the selection `TypeError`, never the
validator's error. -/
theorem getAppLogoUrl_error (appUrl : String) (m : AppManifest) (e : ManifestError)
    (h : getAppLogoUrl appUrl m = Except.error e) : e = ManifestError.typeError := by
  unfold getAppLogoUrl at h
  dsimp only at h
  split at h
  · rename_i e2 heq
    injection h with h2
    subst h2
    split at heq
    · cases heq
    · exact chooseBestIcon_error _ _ heq
  · split at h
    · cases h
    · cases h

/-! ## Claim theorems: transaction classifier -/

/-- C1 (counterexample): the claim says `isMultisend` is true iff the first
parameter's decoded value is a non-empty sequence.  On a first parameter
whose `valueDecoded` is the empty sequence the source's truthiness check
(`!!` of an empty array, which is truthy in JS) yields `true` while the
claim demands `false`. -/
theorem isMultisend_nonempty_cex :
    isMultisend emptyBatchDecoded = true ∧ specIsMultisend emptyBatchDecoded = false :=
  ⟨rfl, rfl⟩

/-- C1 (amended): `isMultisend` is true iff the first parameter's decoded
value is PRESENT (a nested sequence of inner calls, possibly empty); it is
false when `DecodedCallData` is absent, when its parameter list is absent
or empty, or when the first parameter carries no nested value; and the
decision does not depend on the method name. -/
theorem isMultisend_characterization :
    (isMultisend none = false) ∧
    (∀ m, isMultisend (some { method := m, parameters := none }) = false) ∧
    (∀ m, isMultisend (some { method := m, parameters := some [] }) = false) ∧
    (∀ m p ps, p.valueDecoded = none →
      isMultisend (some { method := m, parameters := some (p :: ps) }) = false) ∧
    (∀ m p ps v, p.valueDecoded = some v →
      isMultisend (some { method := m, parameters := some (p :: ps) }) = true) ∧
    (∀ dd m, isMultisend (some { dd with method := m }) = isMultisend (some dd)) := by
  refine ⟨rfl, fun m => rfl, fun m => rfl, ?_, ?_, ?_⟩
  · intro m p ps h
    simp [isMultisend, h]
  · intro m p ps v h
    simp [isMultisend, h]
  · intro dd m
    rfl

/-- C1 (witness): the amended characterization applied at a concrete
decoded call whose first parameter carries a (non-empty) nested batch. -/
theorem isMultisend_characterization_witness :
    isMultisend (some { method := "multiSend", parameters := some [sampleBatchParam] }) = true :=
  isMultisend_characterization.2.2.2.2.1 "multiSend" sampleBatchParam [] [sampleInner] rfl

/-- C7 (counterexample): the claim says the native-transfer label is shown
iff no method name is present and the value is positive, for every raw
transaction and decoded data.  With the method-call display flag
(`showMethodCall`) set to `true` the source suppresses the label even
though the claim's two conditions hold. -/
theorem showsNativeTransfer_cex :
    showsNativeTransfer true none (some oneWeiTx) = false ∧
    specNativeTransfer none (some oneWeiTx) = true :=
  ⟨rfl, rfl⟩

/-- C7 (amended): the native-transfer label is reported iff the
`showMethodCall` display flag is off AND no method name is present in the
decoded data AND the call value is strictly positive. -/
theorem showsNativeTransfer_characterization :
    ∀ (s : Bool) (dd : Option DecodedDataResponse) (tx : Option SafeTransaction),
      showsNativeTransfer s dd tx = (!s && specNativeTransfer dd tx) := by
  intro s dd tx
  simp [showsNativeTransfer, specNativeTransfer, Bool.and_assoc]

/-- C8: in the presentation model the trust flag defaults to `true` when
`TxDetails` is absent or carries no trusted-delegate-target flag, and
equals the carried flag once present. -/
theorem trustedDelegateTarget_behavior :
    (∀ tx dd, (mkTxData tx dd none).trustedDelegateCallTarget = true) ∧
    (∀ tx dd td, td.txData.bind (fun d => d.trustedDelegateCallTarget) = none →
      (mkTxData tx dd (some td)).trustedDelegateCallTarget = true) ∧
    (∀ tx dd td b, td.txData.bind (fun d => d.trustedDelegateCallTarget) = some b →
      (mkTxData tx dd (some td)).trustedDelegateCallTarget = b) := by
  refine ⟨fun tx dd => rfl, ?_, ?_⟩
  · intro tx dd td h
    simp [mkTxData, h]
  · intro tx dd td b h
    simp [mkTxData, h]

/-- C8 (witness): the characterization applied at concrete details — one
with no flag (defaults to `true`), one carrying `false` (the flag wins). -/
theorem trustedDelegateTarget_behavior_witness :
    (mkTxData none none (some detailsNoFlag)).trustedDelegateCallTarget = true ∧
    (mkTxData none none (some detailsFalseFlag)).trustedDelegateCallTarget = false :=
  ⟨trustedDelegateTarget_behavior.2.1 none none detailsNoFlag rfl,
   trustedDelegateTarget_behavior.2.2 none none detailsFalseFlag false rfl⟩

/-! ## Claim theorems: manifest pipeline -/

/-- C3 (counterexample): on two icons sized `"64x64"` and `"many"` the
claim's rules select the first icon's source `"a.png"` (no size-token list
contains the literal `"any"`, no type is SVG, no width reaches 128, so the
fallback applies), but the source's substring test `sizes.includes('any')`
matches `"many"` and returns `"b.png"`. -/
theorem chooseBestIcon_substring_cex :
    chooseBestIcon cexIcons = Except.ok "b.png" ∧
    chooseBestIconSpec cexIcons = "a.png" ∧
    ("b.png" : String) ≠ "a.png" :=
  ⟨rfl, rfl, by decide⟩

/-- C3 (amended): for every non-empty sequence of icon descriptors each
carrying a `sizes` string, `chooseBestIcon` returns the source of the
first icon whose `sizes` STRING contains `"any"` as a substring or whose
type is SVG; otherwise the source of the first icon having a size token of
width ≥ 128; otherwise the first icon's source.  Selection is
deterministic and order-preserving. -/
theorem chooseBestIcon_amended_correct (icons : List AppManifestIcon)
    (hne : icons ≠ []) (h : ∀ i ∈ icons, i.sizes.isSome) :
    chooseBestIcon icons = Except.ok (chooseBestIconAmended icons) := by
  unfold chooseBestIcon chooseBestIconAmended
  cases hf : icons.find? isScalableIcon with
  | some i => simp [hf]
  | none =>
    rw [widthScan_eq_find icons h]
    cases hw : icons.find? hasLargeSizeTok with
    | some i => simp [hw]
    | none =>
      cases icons with
      | nil => exact absurd rfl hne
      | cons a tl => simp [hw]

/-- C3 (witness): the amended selection applied to a single small icon —
none of the rules match, so the fallback returns its source. -/
theorem chooseBestIcon_amended_correct_witness :
    chooseBestIcon [{ src := "x.png", sizes := some "32x32", type := none }] =
      Except.ok (chooseBestIconAmended [{ src := "x.png", sizes := some "32x32", type := none }]) :=
  chooseBestIcon_amended_correct [{ src := "x.png", sizes := some "32x32", type := none }]
    (by decide) (by decide)

/-- C4: the validator accepts a parsed JSON value iff it is a non-null
object carrying `name`, `description` and one of `icons` / `iconPath`; in
particular it rejects `{name:"x"}` and accepts
`{name:"x", description:"y", iconPath:"/i.png"}`; and
`fetchSafeAppFromManifest` fails with the invalid-manifest error exactly
when the fetched document is rejected. -/
theorem isAppManifestValid_characterization :
    (∀ j, isAppManifestValid j = specManifestValid j) ∧
    isAppManifestValid nameOnlyJson = false ∧
    isAppManifestValid iconPathOnlyJson = true ∧
    (∀ appUrl chainId rid d mf j,
      (fetchAppManifestDefault appUrl d mf).result = Except.ok j →
      (fetchSafeAppFromManifest appUrl chainId rid d mf =
          Except.error ManifestError.invalidManifest
        ↔ isAppManifestValid j = false)) := by
  refine ⟨?_, rfl, rfl, ?_⟩
  · intro j
    cases j <;> rfl
  · intro appUrl chainId rid d mf j hj
    unfold fetchSafeAppFromManifest
    rw [hj]
    dsimp only
    by_cases hv : isAppManifestValid j
    · rw [if_pos hv]
      constructor
      · intro hcontra
        exfalso
        cases hg : getAppLogoUrl (trimTrailingSlash appUrl) (jsonToManifest j) with
        | error e2 =>
          rw [hg] at hcontra
          injection hcontra with h2
          exact absurd (h2 ▸ getAppLogoUrl_error _ _ e2 hg) (by decide)
        | ok u =>
          rw [hg] at hcontra
          cases hcontra
      · intro hfalse
        rw [hv] at hfalse
        cases hfalse
    · rw [if_neg hv]
      simp [Bool.not_eq_true] at hv
      simp [hv]

/-- C4 (witness): the characterization applied at a run whose fetch
delivers `{name:"x"}`: the pipeline fails with the invalid-manifest
error. -/
theorem isAppManifestValid_characterization_witness :
    fetchSafeAppFromManifest "https://x.example" "1" 7 (DiscoveryOutcome.response true none)
      (ManifestFetchOutcome.resolves 0 true nameOnlyJson) =
      Except.error ManifestError.invalidManifest :=
  (isAppManifestValid_characterization.2.2.2 "https://x.example" "1" 7
      (DiscoveryOutcome.response true none) (ManifestFetchOutcome.resolves 0 true nameOnlyJson)
      nameOnlyJson rfl).mpr rfl

/-- C5: a chosen reference already carrying the `https://` scheme is
returned unchanged, and any other reference is prefixed with the app URL's
origin, with a separating slash inserted only when the reference is not
root-relative; the three documented shapes resolve as the spec's test
vectors state. -/
theorem getAppLogoUrl_resolution :
    (∀ appUrl ref, getAppLogoUrl appUrl (iconPathManifest ref) =
      Except.ok (if jsStartsWith ref "https://" then ref
        else urlOrigin appUrl ++ (if isRelativeUrl ref then "" else "/") ++ ref)) ∧
    getAppLogoUrl "https://app.example/sub" (iconPathManifest "icon.png") =
      Except.ok "https://app.example/icon.png" ∧
    getAppLogoUrl "https://app.example" (iconPathManifest "/icon.png") =
      Except.ok "https://app.example/icon.png" ∧
    getAppLogoUrl "https://app.example" (iconPathManifest "https://cdn.other/icon.png") =
      Except.ok "https://cdn.other/icon.png" := by
  refine ⟨?_, rfl, rfl, rfl⟩
  intro appUrl ref
  by_cases hs : jsStartsWith ref "https://" <;> simp [getAppLogoUrl, iconPathManifest, hs]

/-- C6: a discovery failure (network error or non-2xx response) leaves the
manifest fetch behaving exactly as a successful discovery that found no
link, so it is never fatal; the candidate manifest URL is
`<normalizedUrl>/manifest.json` when discovery yields no (non-empty) href
and the href appended to the URL's origin when it does. -/
theorem discovery_never_fatal :
    (∀ appUrl t mf, fetchAppManifest appUrl t DiscoveryOutcome.networkError mf =
      fetchAppManifest appUrl t (DiscoveryOutcome.response true none) mf) ∧
    (∀ appUrl t href mf, fetchAppManifest appUrl t (DiscoveryOutcome.response false href) mf =
      fetchAppManifest appUrl t (DiscoveryOutcome.response true none) mf) ∧
    (∀ appUrl, computeManifestUrl appUrl DiscoveryOutcome.networkError =
      trimTrailingSlash appUrl ++ "/manifest.json") ∧
    (∀ appUrl href, computeManifestUrl appUrl (DiscoveryOutcome.response false href) =
      trimTrailingSlash appUrl ++ "/manifest.json") ∧
    (∀ appUrl, computeManifestUrl appUrl (DiscoveryOutcome.response true none) =
      trimTrailingSlash appUrl ++ "/manifest.json") ∧
    (∀ appUrl h, computeManifestUrl appUrl (DiscoveryOutcome.response true (some h)) =
      if h == "" then trimTrailingSlash appUrl ++ "/manifest.json" else urlOrigin appUrl ++ h) :=
  ⟨fun _ _ _ => rfl, fun _ _ _ _ => rfl, fun _ => rfl,
   fun _ _ => rfl, fun _ => rfl, fun _ _ => rfl⟩

/-- C2: if the timeout elapses before the manifest response would arrive,
the fetch is aborted and the call fails with the abort member of the
`ManifestFetchError` family, carrying the fetched URL; a non-2xx response
that does arrive in time also fails, with the non-ok member; and the
defaulted call uses a 5000 ms timeout. -/
theorem fetchAppManifest_timeout_behavior :
    ∀ (appUrl : String) (t : Nat) (d : DiscoveryOutcome) (elapsed : Nat) (ok : Bool) (body : Json),
      (t < elapsed →
        (fetchAppManifest appUrl t d (ManifestFetchOutcome.resolves elapsed ok body)).result =
          Except.error (ManifestError.abortError (computeManifestUrl appUrl d))) ∧
      (elapsed ≤ t → ok = false →
        (fetchAppManifest appUrl t d (ManifestFetchOutcome.resolves elapsed ok body)).result =
          Except.error (ManifestError.notOk (computeManifestUrl appUrl d))) ∧
      (t < elapsed →
        (fetchAppManifest appUrl t d (ManifestFetchOutcome.networkError elapsed)).result =
          Except.error (ManifestError.abortError (computeManifestUrl appUrl d))) ∧
      fetchAppManifestDefault appUrl d (ManifestFetchOutcome.resolves elapsed ok body) =
        fetchAppManifest appUrl 5000 d (ManifestFetchOutcome.resolves elapsed ok body) := by
  intro appUrl t d elapsed ok body
  refine ⟨?_, ?_, ?_, rfl⟩
  · intro hlt
    simp [fetchAppManifest, Nat.not_le.mpr hlt]
  · intro hle hok
    subst hok
    simp [fetchAppManifest, hle]
  · intro hlt
    simp [fetchAppManifest, Nat.not_le.mpr hlt]

/-- C2 (witness): a response that would arrive at 200 ms against a 100 ms
timeout is aborted; an in-time non-2xx response fails with the non-ok
error. -/
theorem fetchAppManifest_timeout_behavior_witness :
    (fetchAppManifest "https://x.example" 100 DiscoveryOutcome.networkError
      (ManifestFetchOutcome.resolves 200 true Json.null)).result =
      Except.error (ManifestError.abortError
        (computeManifestUrl "https://x.example" DiscoveryOutcome.networkError)) ∧
    (fetchAppManifest "https://x.example" 100 DiscoveryOutcome.networkError
      (ManifestFetchOutcome.resolves 50 false Json.null)).result =
      Except.error (ManifestError.notOk
        (computeManifestUrl "https://x.example" DiscoveryOutcome.networkError)) :=
  ⟨(fetchAppManifest_timeout_behavior "https://x.example" 100 DiscoveryOutcome.networkError
      200 true Json.null).1 (by decide),
   (fetchAppManifest_timeout_behavior "https://x.example" 100 DiscoveryOutcome.networkError
      50 false Json.null).2.1 (by decide) rfl⟩

/-- C9 (counterexample): when the manifest fetch rejects with a network
error after 10 ms, well before the 5000 ms timer would fire, the rejection
propagates out of `fetchAppManifest` without reaching `clearTimeout`
(there is no `try`/`finally`), so the timer callback is still outstanding
when the call throws — the claim that the timer is cleared on every
completion fails. -/
theorem fetchAppManifest_timer_leak_cex :
    (fetchAppManifest "https://app.example" 5000 (DiscoveryOutcome.response true none)
      (ManifestFetchOutcome.networkError 10)).timerCleared = false ∧
    (fetchAppManifest "https://app.example" 5000 (DiscoveryOutcome.response true none)
      (ManifestFetchOutcome.networkError 10)).timerOutstanding = true :=
  ⟨rfl, rfl⟩

/-- C9 (amended): `clearTimeout` runs exactly when the fetch promise
resolves (the response arrives within the timeout, whether 2xx or not);
when the fetch rejects it is skipped — after a timeout the callback has
already fired (nothing remains pending), but after an in-time network
error the timer is left outstanding when the call throws. -/
theorem timer_cleanup_characterization :
    ∀ (appUrl : String) (t : Nat) (d : DiscoveryOutcome) (elapsed : Nat) (ok : Bool) (body : Json),
      ((fetchAppManifest appUrl t d (ManifestFetchOutcome.resolves elapsed ok body)).timerCleared
        = decide (elapsed ≤ t)) ∧
      ((fetchAppManifest appUrl t d (ManifestFetchOutcome.resolves elapsed ok body)).timerOutstanding
        = false) ∧
      ((fetchAppManifest appUrl t d (ManifestFetchOutcome.networkError elapsed)).timerCleared
        = false) ∧
      ((fetchAppManifest appUrl t d (ManifestFetchOutcome.networkError elapsed)).timerOutstanding
        = decide (elapsed ≤ t)) := by
  intro appUrl t d elapsed ok body
  by_cases hle : elapsed ≤ t
  · cases ok <;> simp [fetchAppManifest, hle]
  · cases ok <;> simp [fetchAppManifest, hle]

/-- C10: a manifest accepted by the validator (which checks only top-level
key presence) whose icon list has no scalable icon and, before any icon
meeting the width threshold, an icon without a `sizes` field: the
width-threshold scan dereferences the missing field and aborts selection
with a `TypeError` instead of skipping the icon, and the whole pipeline
surfaces that error. -/
theorem validator_accepts_crashing_manifest :
    isAppManifestValid crashingManifestJson = true ∧
    ((jsonToManifest crashingManifestJson).icons.getD []).find? isScalableIcon = none ∧
    chooseBestIcon ((jsonToManifest crashingManifestJson).icons.getD []) =
      Except.error ManifestError.typeError ∧
    fetchSafeAppFromManifest "https://x.example" "1" 7 (DiscoveryOutcome.response true none)
      (ManifestFetchOutcome.resolves 0 true crashingManifestJson) =
      Except.error ManifestError.typeError :=
  ⟨rfl, rfl, rfl, rfl⟩

end DecodedTxSpec
